import Mathlib

/-!
Verification of the instrument data model and engine-binding dispatch layer of
`quantsbin/derivativepricing/instruments.py` (classes `Instrument`,
`VanillaOption`, `EqOption`, `FutOption`, `FXOption`, `ComOption`), as a
shallow embedding in Lean 4.

Conventions of the embedding:
* Python numbers are modelled as `ℚ` (the operations involved — subtraction,
  multiplication by ±1, `max`, comparison with 0 — are exact).
* A Python value that may be `None`, a number, a string or a list is modelled
  by the small universe `PyVal`; `Option PyVal` at a call site distinguishes
  an omitted keyword argument (`Option.none`) from an explicitly passed one.
* Python exceptions are modelled by the error type `QbError`, one constructor
  per raise site relevant to the spec:
  - `malformedDate` embeds the `ValueError` raised by
    `datetime.strptime(expiry_date, '%Y%m%d')` on a non-matching string and
    the `ValueError` raised by the `datetime` constructor on an out-of-range
    date (the spec calls this signal `MalformedDateError`);
  - `noDefaultModel` embeds the `KeyError` raised by the failed
    `DEFAULT_MODEL[undl][derivative_type][expiry_type]` catalog lookup in
    `Instrument.engine` (the spec calls this signal `NoDefaultModelError`);
  - `typeError` embeds the `TypeError` raised by `spot0 - self.strike` in
    `VanillaOption.payoff` when an operand is `None` or non-numeric.
* `datetime.strptime` with format `'%Y%m%d'` is embedded following CPython's
  `_strptime` implementation: the format compiles to the regular expression
  `(\d\d\d\d)(1[0-2]|0[1-9]|[1-9])(3[01]|[12]\d|0[1-9]|[1-9])`, matched from
  the start of the string with left-to-right backtracking; a match leaving
  unconverted trailing data is an error; the matched numbers are then passed
  to the `datetime` constructor, which validates the calendar date.
-/

/-- The Python exceptions relevant to this layer, one constructor per raise
site (see the module docstring for the mapping). -/
inductive QbError where
  | malformedDate
  | noDefaultModel
  | typeError
deriving DecidableEq, Repr

/-- A Python runtime value as it appears at this layer: `None`, a number, a
string, or a list of (date string, amount) pairs such as `div_list`. -/
inductive PyVal where
  | pyNone
  | num (q : ℚ)
  | str (s : String)
  | divs (l : List (String × ℚ))
deriving DecidableEq, Repr

/-- Python truthiness on `PyVal`: `None`, `0`, `""` and `[]` are falsy.
Embeds the test `if not kwargs['model']` in `Instrument.engine` and the
`x or default` idiom in `VanillaOption.__init__`. -/
def PyVal.falsy : PyVal → Bool
  | PyVal.pyNone => true
  | PyVal.num q => decide (q = 0)
  | PyVal.str s => s = ""
  | PyVal.divs l => l.isEmpty

/-- A calendar date, the result of a successful `datetime.strptime` call
(time-of-day components are always zero for format `'%Y%m%d'` and omitted). -/
structure Date where
  year : Nat
  month : Nat
  day : Nat
deriving DecidableEq, Repr

/-- Gregorian leap-year rule, as implemented by Python's `datetime`. -/
def isLeap (y : Nat) : Bool := y % 4 = 0 && (y % 100 ≠ 0 || y % 400 = 0)

/-- Number of days in a month, as implemented by Python's `datetime`. -/
def daysInMonth (y m : Nat) : Nat :=
  if m = 2 then (if isLeap y then 29 else 28)
  else if m = 4 ∨ m = 6 ∨ m = 9 ∨ m = 11 then 30
  else 31

/-- The regex fragment `(\d\d\d\d)` that CPython's `_strptime` uses for `%Y`:
exactly four digits, returned as a number together with the rest of the
input. -/
def parseYear : List Char → Option (Nat × List Char)
  | a :: b :: c :: d :: rest =>
    if a.isDigit && b.isDigit && c.isDigit && d.isDigit then
      some ((a.toNat - 48) * 1000 + (b.toNat - 48) * 100 +
            (c.toNat - 48) * 10 + (d.toNat - 48), rest)
    else none
  | _ => none

/-- The regex fragment `(1[0-2]|0[1-9]|[1-9])` that CPython's `_strptime`
uses for `%m`, as the list of possible matches in the regex engine's
backtracking order (two-digit alternatives before the one-digit one). -/
def mAlts (cs : List Char) : List (Nat × List Char) :=
  (match cs with
   | a :: b :: rest =>
     (if a = '1' ∧ '0' ≤ b ∧ b ≤ '2' then [(10 + (b.toNat - 48), rest)] else []) ++
     (if a = '0' ∧ '1' ≤ b ∧ b ≤ '9' then [(b.toNat - 48, rest)] else [])
   | _ => []) ++
  (match cs with
   | a :: rest =>
     if '1' ≤ a ∧ a ≤ '9' then [(a.toNat - 48, rest)] else []
   | _ => [])

/-- The regex fragment `(3[01]|[12]\d|0[1-9]|[1-9])` that CPython's
`_strptime` uses for `%d`, as the list of possible matches in the regex
engine's backtracking order. -/
def dAlts (cs : List Char) : List (Nat × List Char) :=
  (match cs with
   | a :: b :: rest =>
     (if a = '3' ∧ ('0' ≤ b ∧ b ≤ '1') then [(30 + (b.toNat - 48), rest)] else []) ++
     (if ('1' ≤ a ∧ a ≤ '2') ∧ b.isDigit then
        [((a.toNat - 48) * 10 + (b.toNat - 48), rest)] else []) ++
     (if a = '0' ∧ '1' ≤ b ∧ b ≤ '9' then [(b.toNat - 48, rest)] else [])
   | _ => []) ++
  (match cs with
   | a :: rest =>
     if '1' ≤ a ∧ a ≤ '9' then [(a.toNat - 48, rest)] else []
   | _ => [])

/-- The first match of the full regex for format `'%Y%m%d'` against a prefix
of the input, in backtracking order: year, then month, then day, returning
the parsed fields and the unconsumed rest of the input. -/
def matchYmd (cs : List Char) : Option (Nat × Nat × Nat × List Char) :=
  (parseYear cs).bind fun yr =>
    ((mAlts yr.2).flatMap fun mr =>
      (dAlts mr.2).map fun dr => (yr.1, mr.1, dr.1, dr.2)).head?

/-- `datetime.strptime(s, '%Y%m%d')` as called by `VanillaOption.__init__`:
regex match from the start of the string; error when the regex does not
match, when unconverted data remains, or when the `datetime` constructor
rejects the parsed fields (year outside `MINYEAR..MAXYEAR` or day outside
the month). All of these raise `ValueError` in Python, embedded as
`QbError.malformedDate`. -/
def strptimeYmd (s : String) : Except QbError Date :=
  match matchYmd s.toList with
  | Option.none => Except.error QbError.malformedDate
  | some (y, m, d, rest) =>
    if rest = [] then
      if 1 ≤ y ∧ 1 ≤ d ∧ d ≤ daysInMonth y m then
        Except.ok (Date.mk y m d)
      else Except.error QbError.malformedDate
    else Except.error QbError.malformedDate

/-- The character of a decimal digit, `chr(48 + n)` for `n < 10`. -/
def digitChar (n : Nat) : Char := Char.ofNat (48 + n)

/-- The four zero-padded digits of a year `y ≤ 9999`. -/
def yearChars (y : Nat) : List Char :=
  [digitChar (y / 1000 % 10), digitChar (y / 100 % 10),
   digitChar (y / 10 % 10), digitChar (y % 10)]

/-- The two zero-padded digits of a month `m ≤ 99`. -/
def monthChars (m : Nat) : List Char :=
  [digitChar (m / 10 % 10), digitChar (m % 10)]

/-- The two zero-padded digits of a day `d ≤ 99`. -/
def dayChars (d : Nat) : List Char :=
  [digitChar (d / 10 % 10), digitChar (d % 10)]

/-- The canonical 8-character `YYYYMMDD` rendering of a date with
`y ≤ 9999`, `m ≤ 99`, `d ≤ 99`: zero-padded year, month and day. -/
def fmt8 (y m d : Nat) : String :=
  String.mk (yearChars y ++ (monthChars m ++ dayChars d))

/-- Modelled from the spec: `VanillaOptionType.CALL.value` from
`namesnmapper.py` (imported by `instruments.py` but not under `src/`); the
adapter docstrings fix the literal: "option_type: 'Call' or 'Put' (default
value is set to 'Call')". -/
def VanillaOptionType.CALL : String := "Call"

/-- Modelled from the spec: `VanillaOptionType.PUT.value` from
`namesnmapper.py`; the adapter docstrings fix the literal `'Put'`. -/
def VanillaOptionType.PUT : String := "Put"

/-- Modelled from the spec: `ExpiryType.EUROPEAN.value` from
`namesnmapper.py`; the adapter docstrings fix the literal `'European'`. -/
def ExpiryType.EUROPEAN : String := "European"

/-- Modelled from the spec: `ExpiryType.AMERICAN.value` from
`namesnmapper.py`; the adapter docstrings fix the literal `'American'`. -/
def ExpiryType.AMERICAN : String := "American"

/-- Modelled from the spec: `DerivativeType.VANILLA_OPTION.value` from
`namesnmapper.py`; the `EqOption` docstring fixes the literal
`"Vanilla Option"`. -/
def DerivativeType.VANILLA_OPTION : String := "Vanilla Option"

/-- Modelled from the spec: `UdlType.STOCK.value` from `namesnmapper.py`;
the spec's underlying-class enum is Stock / Futures / FX / Commodity. -/
def UdlType.STOCK : String := "Stock"

/-- Modelled from the spec: `UdlType.FUTURES.value` from `namesnmapper.py`. -/
def UdlType.FUTURES : String := "Futures"

/-- Modelled from the spec: `UdlType.FX.value` from `namesnmapper.py`. -/
def UdlType.FX : String := "FX"

/-- Modelled from the spec: `UdlType.COMMODITY.value` from
`namesnmapper.py`. -/
def UdlType.COMMODITY : String := "Commodity"

/-- The Python idiom `x or default` for an optional string argument:
`Option.none` models Python `None`; the empty string is falsy, every other
string is returned verbatim. Used by `VanillaOption.__init__`. -/
def orDefaultS (v : Option String) (dflt : String) : String :=
  match v with
  | Option.none => dflt
  | some s => if s = "" then dflt else s

/-- The state of a constructed `VanillaOption` object: the five attributes
assigned by `VanillaOption.__init__`. `strike` is the caller's value stored
verbatim (a `PyVal`, since the adapters default it to `None`). -/
structure VanillaOption where
  option_type : String
  expiry_type : String
  strike : PyVal
  expiry_date : Date
  derivative_type : String
deriving DecidableEq, Repr

/-- `VanillaOption.__init__(option_type, expiry_type, strike, expiry_date,
derivative_type)`: applies the `or`-defaults to the three string arguments,
parses `expiry_date` with `strptime`, and stores `strike` verbatim. A
`strptime` failure propagates to the caller and no object is produced. -/
def mkVanillaOption (option_type expiry_type : Option String) (strike : PyVal)
    (expiry_date : String) (derivative_type : Option String) :
    Except QbError VanillaOption :=
  match strptimeYmd expiry_date with
  | Except.error e => Except.error e
  | Except.ok dt =>
    Except.ok (VanillaOption.mk
      (orDefaultS option_type VanillaOptionType.CALL)
      (orDefaultS expiry_type ExpiryType.EUROPEAN)
      strike dt
      (orDefaultS derivative_type DerivativeType.VANILLA_OPTION))

/-- `VanillaOption._option_type_flag`: `1` when the stored `option_type`
equals `VanillaOptionType.CALL.value`, else `-1`. -/
def VanillaOption.option_type_flag (o : VanillaOption) : ℚ :=
  if o.option_type = VanillaOptionType.CALL then 1 else -1

/-- `VanillaOption.payoff(spot0)`:
`max(self._option_type_flag * (spot0 - self.strike), 0.0)`. The subtraction
`spot0 - self.strike` raises `TypeError` unless both operands are numbers
(in particular when `spot0` is omitted, so equal to its default `None`, or
when the stored strike is `None`). -/
def VanillaOption.payoff (o : VanillaOption) (spot0 : PyVal) :
    Except QbError ℚ :=
  match spot0, o.strike with
  | PyVal.num s, PyVal.num k =>
    Except.ok (max (o.option_type_flag * (s - k)) 0)
  | _, _ => Except.error QbError.typeError

/-- Modelled from the spec: the Model Catalog (`DEFAULT_MODEL` and
`OBJECT_MODEL` from `namesnmapper.py`, imported by `instruments.py` but not
under `src/`), as the spec's two read-only lookups: `default_model_for`
keyed by (underlying class, derivative type, expiry type) and
`permitted_models_for` keyed by (underlying class, expiry type). `Option` is
`none` exactly when the nested dictionaries have no entry for the key, in
which case the Python lookup raises `KeyError`. -/
structure Catalog where
  defaultModel : String → String → String → Option String
  objectModel : String → String → Option (List String)

/-- Modelled from the spec: model identifiers are non-empty names of pricing
model families ("an opaque string naming a pricing model family"); a
catalog is well-formed when no permitted-model list contains the empty
string. -/
def Catalog.WF (c : Catalog) : Prop :=
  ∀ undl et l, c.objectModel undl et = some l → "" ∉ l

/-- Modelled from the spec: the external `PricingEngine` object
(`engineconfig.py`, not under `src/`) as consumed here — per the spec its
constructor accepts the contract reference, the model identifier and the
canonical parameter bag, and engine construction itself is outside this
layer. -/
structure PricingEngineB where
  undl : String
  contract : VanillaOption
  model : PyVal
  bag : List (String × PyVal)
deriving DecidableEq, Repr

/-- `Instrument.engine(**kwargs)` (the single funnel all four adapters
delegate to): when `kwargs['model']` is falsy, resolve the default model via
`DEFAULT_MODEL[self.undl][self.derivative_type][self.expiry_type]` — a
missing entry raises `KeyError`, embedded as `QbError.noDefaultModel`;
otherwise the caller's model is used verbatim. Then the pricing engine is
constructed from the instrument and the full keyword bag. -/
def instrumentEngine (cat : Catalog) (undl : String) (o : VanillaOption)
    (model : PyVal) (bag : List (String × PyVal)) :
    Except QbError PricingEngineB :=
  if model.falsy then
    match cat.defaultModel undl o.derivative_type o.expiry_type with
    | Option.none => Except.error QbError.noDefaultModel
    | some m => Except.ok (PricingEngineB.mk undl o (PyVal.str m) bag)
  else
    Except.ok (PricingEngineB.mk undl o model bag)

/-- `Instrument.list_models`:
`", ".join(OBJECT_MODEL[self.undl][self.expiry_type])`; a missing catalog
entry raises `KeyError`, embedded as `QbError.noDefaultModel` (the spec:
"fails with the same NoDefaultModelError-class signal"). -/
def list_models (cat : Catalog) (undl : String) (o : VanillaOption) :
    Except QbError String :=
  match cat.objectModel undl o.expiry_type with
  | Option.none => Except.error QbError.noDefaultModel
  | some l => Except.ok (String.intercalate ", " l)

/-- Lookup of a key in a keyword bag (first binding wins), used to state
properties of the canonical parameter bags the adapters build. -/
def bagGet (key : String) (bag : List (String × PyVal)) : Option PyVal :=
  (bag.find? (fun kv => kv.1 == key)).map (fun kv => kv.2)

/-- The keyword bag `EqOption.engine` passes to `Instrument.engine`
(`spot0=spot0, rf_rate=rf_rate, cnv_yield=yield_div, pv_cnv=0,
div_list=div_list, volatility=volatility, pricing_date=pricing_date,
**kwargs`). Each parameter is `Option PyVal`: `Option.none` means the caller
omitted the keyword, in which case the Python default from the `def` line
applies (`rf_rate=0`, `yield_div=0`, the rest `None`). -/
def eqEngineBag (spot0 rf_rate yield_div div_list volatility pricing_date :
    Option PyVal) (kwargs : List (String × PyVal)) : List (String × PyVal) :=
  [("spot0", spot0.getD PyVal.pyNone),
   ("rf_rate", rf_rate.getD (PyVal.num 0)),
   ("cnv_yield", yield_div.getD (PyVal.num 0)),
   ("pv_cnv", PyVal.num 0),
   ("div_list", div_list.getD PyVal.pyNone),
   ("volatility", volatility.getD PyVal.pyNone),
   ("pricing_date", pricing_date.getD PyVal.pyNone)] ++ kwargs

/-- `EqOption.engine`: builds the equity keyword bag and delegates to
`Instrument.engine` with `self.undl = UdlType.STOCK.value`; the `model`
keyword defaults to `None` when omitted. -/
def eqEngine (cat : Catalog) (o : VanillaOption)
    (model spot0 rf_rate yield_div div_list volatility pricing_date :
      Option PyVal) (kwargs : List (String × PyVal)) :
    Except QbError PricingEngineB :=
  instrumentEngine cat UdlType.STOCK o (model.getD PyVal.pyNone)
    (eqEngineBag spot0 rf_rate yield_div div_list volatility pricing_date kwargs)

/-- The keyword bag `FutOption.engine` passes to `Instrument.engine`
(`spot0=fwd0, rf_rate=rf_rate, cnv_yield=rf_rate, volatility=volatility,
pricing_date=pricing_date, **kwargs`): the same local `rf_rate` (Python
default `0` when omitted) is passed both as `rf_rate` and as `cnv_yield`. -/
def futEngineBag (fwd0 rf_rate volatility pricing_date : Option PyVal)
    (kwargs : List (String × PyVal)) : List (String × PyVal) :=
  [("spot0", fwd0.getD PyVal.pyNone),
   ("rf_rate", rf_rate.getD (PyVal.num 0)),
   ("cnv_yield", rf_rate.getD (PyVal.num 0)),
   ("volatility", volatility.getD PyVal.pyNone),
   ("pricing_date", pricing_date.getD PyVal.pyNone)] ++ kwargs

/-- `FutOption.engine`: builds the futures keyword bag and delegates to
`Instrument.engine` with `self.undl = UdlType.FUTURES.value`. -/
def futEngine (cat : Catalog) (o : VanillaOption)
    (model fwd0 rf_rate volatility pricing_date : Option PyVal)
    (kwargs : List (String × PyVal)) : Except QbError PricingEngineB :=
  instrumentEngine cat UdlType.FUTURES o (model.getD PyVal.pyNone)
    (futEngineBag fwd0 rf_rate volatility pricing_date kwargs)

/-- The keyword bag `FXOption.engine` passes to `Instrument.engine`
(`spot0=spot0, rf_rate=rf_rate_local, cnv_yield=rf_rate_foreign,
volatility=volatility, pricing_date=pricing_date, **kwargs`); the two rates
default to `0` when omitted. -/
def fxEngineBag (spot0 rf_rate_local rf_rate_foreign volatility pricing_date :
    Option PyVal) (kwargs : List (String × PyVal)) : List (String × PyVal) :=
  [("spot0", spot0.getD PyVal.pyNone),
   ("rf_rate", rf_rate_local.getD (PyVal.num 0)),
   ("cnv_yield", rf_rate_foreign.getD (PyVal.num 0)),
   ("volatility", volatility.getD PyVal.pyNone),
   ("pricing_date", pricing_date.getD PyVal.pyNone)] ++ kwargs

/-- `FXOption.engine`: builds the FX keyword bag and delegates to
`Instrument.engine` with `self.undl = UdlType.FX.value`. -/
def fxEngine (cat : Catalog) (o : VanillaOption)
    (model spot0 rf_rate_local rf_rate_foreign volatility pricing_date :
      Option PyVal) (kwargs : List (String × PyVal)) :
    Except QbError PricingEngineB :=
  instrumentEngine cat UdlType.FX o (model.getD PyVal.pyNone)
    (fxEngineBag spot0 rf_rate_local rf_rate_foreign volatility pricing_date kwargs)

/-- The keyword bag `ComOption.engine` passes to `Instrument.engine`
(`spot0=spot0, rf_rate=rf_rate, cnv_yield=cnv_yield, cost_yield=cost_yield,
volatility=volatility, pricing_date=pricing_date, **kwargs`); the rate and
the two yields default to `0` when omitted. -/
def comEngineBag (spot0 rf_rate cnv_yield cost_yield volatility pricing_date :
    Option PyVal) (kwargs : List (String × PyVal)) : List (String × PyVal) :=
  [("spot0", spot0.getD PyVal.pyNone),
   ("rf_rate", rf_rate.getD (PyVal.num 0)),
   ("cnv_yield", cnv_yield.getD (PyVal.num 0)),
   ("cost_yield", cost_yield.getD (PyVal.num 0)),
   ("volatility", volatility.getD PyVal.pyNone),
   ("pricing_date", pricing_date.getD PyVal.pyNone)] ++ kwargs

/-- `ComOption.engine`: builds the commodity keyword bag and delegates to
`Instrument.engine` with `self.undl = UdlType.COMMODITY.value`. -/
def comEngine (cat : Catalog) (o : VanillaOption)
    (model spot0 rf_rate cnv_yield cost_yield volatility pricing_date :
      Option PyVal) (kwargs : List (String × PyVal)) :
    Except QbError PricingEngineB :=
  instrumentEngine cat UdlType.COMMODITY o (model.getD PyVal.pyNone)
    (comEngineBag spot0 rf_rate cnv_yield cost_yield volatility pricing_date kwargs)

/-- A concrete catalog with a single permitted-model list and no default
entries, used to instantiate hypotheses at concrete inputs. -/
def catBSM : Catalog :=
  Catalog.mk (fun _ _ _ => Option.none)
    (fun u e => if u = UdlType.STOCK ∧ e = ExpiryType.EUROPEAN then
      some ["BSM", "MC_GBM"] else Option.none)

/-- A concrete catalog with no entries at all. -/
def catEmpty : Catalog :=
  Catalog.mk (fun _ _ _ => Option.none) (fun _ _ => Option.none)

/-- A concrete equity call option used to instantiate theorems:
`EqOption(option_type='Call', strike=100, expiry_date='20181210')`. -/
def sampleCall : VanillaOption :=
  VanillaOption.mk "Call" "European" (PyVal.num 100) (Date.mk 2018 12 10)
    "Vanilla Option"

/-- The same contract with `option_type='Put'`. -/
def samplePut : VanillaOption :=
  VanillaOption.mk "Put" "European" (PyVal.num 100) (Date.mk 2018 12 10)
    "Vanilla Option"

/-- Claim C1: for every constructed vanilla option with strike K > 0 and
every spot S ≥ 0, payoff(S) equals max(S − K, 0) when option_type is Call
and max(K − S, 0) when option_type is Put, and the returned value is never
negative. -/
theorem payoff_call_put_nonneg (o : VanillaOption) (K S : ℚ)
    (_hK : 0 < K) (_hS : 0 ≤ S) (hstrike : o.strike = PyVal.num K) :
    (o.option_type = VanillaOptionType.CALL →
       o.payoff (PyVal.num S) = Except.ok (max (S - K) 0)) ∧
    (o.option_type = VanillaOptionType.PUT →
       o.payoff (PyVal.num S) = Except.ok (max (K - S) 0)) ∧
    (∀ q, o.payoff (PyVal.num S) = Except.ok q → 0 ≤ q) := by
  refine ⟨fun h => ?_, fun h => ?_, fun q hq => ?_⟩
  · simp [VanillaOption.payoff, hstrike, VanillaOption.option_type_flag, h]
  · have hne : o.option_type ≠ VanillaOptionType.CALL := by
      rw [h]; decide
    have hval : (-1 : ℚ) * (S - K) = K - S := by ring
    simp [VanillaOption.payoff, hstrike, VanillaOption.option_type_flag, hne, hval]
  · simp only [VanillaOption.payoff, hstrike] at hq
    cases hq
    exact le_max_right _ _

/-- Witness for C1 at the concrete contracts with strike 100 and spot 110:
the Call pays max(110 − 100, 0) and the Put pays max(100 − 110, 0). -/
theorem payoff_call_put_nonneg_witness :
    sampleCall.payoff (PyVal.num 110) = Except.ok (max (110 - 100 : ℚ) 0) ∧
    samplePut.payoff (PyVal.num 110) = Except.ok (max (100 - 110 : ℚ) 0) :=
  ⟨(payoff_call_put_nonneg sampleCall 100 110 (by norm_num) (by norm_num) rfl).1 rfl,
   (payoff_call_put_nonneg samplePut 100 110 (by norm_num) (by norm_num) rfl).2.1 rfl⟩

/-- Claim C10: any stored option_type other than the exact string "Call"
makes payoff return the put payoff max(strike − spot, 0); construction
never rejects an unrecognized option_type (it succeeds whenever the date
string parses, storing truthy values verbatim); and a falsy option_type
(None or the empty string) is silently replaced by "Call". -/
theorem non_call_is_put_and_never_rejected :
    (∀ (o : VanillaOption) (S K : ℚ), o.option_type ≠ VanillaOptionType.CALL →
       o.strike = PyVal.num K →
       o.payoff (PyVal.num S) = Except.ok (max (K - S) 0)) ∧
    (∀ (ot et dt : Option String) (st : PyVal) (ed : String) (d : Date),
       strptimeYmd ed = Except.ok d →
       mkVanillaOption ot et st ed dt =
         Except.ok (VanillaOption.mk (orDefaultS ot VanillaOptionType.CALL)
           (orDefaultS et ExpiryType.EUROPEAN) st d
           (orDefaultS dt DerivativeType.VANILLA_OPTION))) ∧
    (∀ (et dt : Option String) (st : PyVal) (ed : String) (d : Date),
       strptimeYmd ed = Except.ok d →
       (mkVanillaOption Option.none et st ed dt).map VanillaOption.option_type
           = Except.ok VanillaOptionType.CALL ∧
       (mkVanillaOption (some "") et st ed dt).map VanillaOption.option_type
           = Except.ok VanillaOptionType.CALL) := by
  refine ⟨fun o S K hne hstrike => ?_, fun ot et dt st ed d hd => ?_,
    fun et dt st ed d hd => ?_⟩
  · have hval : (-1 : ℚ) * (S - K) = K - S := by ring
    simp [VanillaOption.payoff, hstrike, VanillaOption.option_type_flag, hne, hval]
  · simp [mkVanillaOption, hd]
  · constructor <;> simp [mkVanillaOption, hd, orDefaultS, Except.map]

/-- Witness for C10: the misspelled option_type "call" yields the put
payoff at spot 90, strike 100; construction with the arbitrary string
"Banana" succeeds verbatim; a None option_type is stored as "Call". -/
theorem non_call_is_put_and_never_rejected_witness :
    (VanillaOption.mk "call" "European" (PyVal.num 100) (Date.mk 2018 12 10)
        "Vanilla Option").payoff (PyVal.num 90) = Except.ok (max (100 - 90 : ℚ) 0) ∧
    mkVanillaOption (some "Banana") (some "European") (PyVal.num 100) "20181210"
        Option.none
      = Except.ok (VanillaOption.mk "Banana" "European" (PyVal.num 100)
          (Date.mk 2018 12 10) "Vanilla Option") ∧
    (mkVanillaOption Option.none (some "European") (PyVal.num 100) "20181210"
        Option.none).map VanillaOption.option_type = Except.ok "Call" :=
  ⟨(non_call_is_put_and_never_rejected).1 _ 90 100 (by decide) rfl,
   (non_call_is_put_and_never_rejected).2.1 (some "Banana") (some "European")
     Option.none (PyVal.num 100) "20181210" (Date.mk 2018 12 10) rfl,
   ((non_call_is_put_and_never_rejected).2.2 (some "European") Option.none
     (PyVal.num 100) "20181210" (Date.mk 2018 12 10) rfl).1⟩

/-- Claim C3 counterexample: constructing a vanilla option with
option_type "Banana" and expiry_type "Sometime" — neither a member of its
enum — succeeds with both invalid values stored verbatim; no error
surfaces to the caller. -/
theorem invalid_enum_value_accepted :
    mkVanillaOption (some "Banana") (some "Sometime") (PyVal.num 100)
        "20181210" Option.none
      = Except.ok (VanillaOption.mk "Banana" "Sometime" (PyVal.num 100)
          (Date.mk 2018 12 10) "Vanilla Option") := rfl

/-- Claim C3 (amended): at construction, option_type and expiry_type are
not validated against their enums at all: whenever the expiry-date string
parses, construction succeeds; a truthy value (enum member or not) is
stored verbatim, and a falsy value is silently replaced by the default
("Call" / "European"). -/
theorem construction_skips_enum_validation (ot et dt : Option String)
    (st : PyVal) (ed : String) (d : Date)
    (hd : strptimeYmd ed = Except.ok d) :
    ∃ o : VanillaOption, mkVanillaOption ot et st ed dt = Except.ok o ∧
      o.option_type = orDefaultS ot VanillaOptionType.CALL ∧
      o.expiry_type = orDefaultS et ExpiryType.EUROPEAN := by
  refine ⟨VanillaOption.mk (orDefaultS ot VanillaOptionType.CALL)
    (orDefaultS et ExpiryType.EUROPEAN) st d
    (orDefaultS dt DerivativeType.VANILLA_OPTION), ?_, rfl, rfl⟩
  simp [mkVanillaOption, hd]

/-- Witness for the amended C3 at a concrete invalid pair: option_type
"CALL" (wrong case) and expiry_type "american" (wrong case) are both
stored verbatim with no error. -/
theorem construction_skips_enum_validation_witness :
    ∃ o : VanillaOption,
      mkVanillaOption (some "CALL") (some "american") (PyVal.num 5)
          "20200229" Option.none = Except.ok o ∧
      o.option_type = orDefaultS (some "CALL") VanillaOptionType.CALL ∧
      o.expiry_type = orDefaultS (some "american") ExpiryType.EUROPEAN :=
  construction_skips_enum_validation (some "CALL") (some "american")
    Option.none (PyVal.num 5) "20200229" (Date.mk 2020 2 29) rfl

/-- Claim C5 counterexample: a negative spot is not rejected by payoff:
on the Put contract with strike 100, payoff(−5) returns 105 instead of
failing with an InvalidMarketValueError-style signal. -/
theorem negative_spot_not_rejected :
    samplePut.payoff (PyVal.num (-5)) = Except.ok 105 := by
  have hne : ("Put" : String) ≠ "Call" := by decide
  simp only [samplePut, VanillaOption.payoff, VanillaOption.option_type_flag,
    VanillaOptionType.CALL, if_neg hne]
  norm_num [max_def]

/-- Claim C5 (amended): payoff called with a missing (None) or non-numeric
spot fails — with the TypeError of the subtraction spot0 − strike, there
being no dedicated InvalidMarketValueError — so such a value never
propagates into a result; but a negative numeric spot is not validated:
payoff computes a value for it. -/
theorem payoff_spot_validation (o : VanillaOption) :
    o.payoff PyVal.pyNone = Except.error QbError.typeError ∧
    (∀ s, o.payoff (PyVal.str s) = Except.error QbError.typeError) ∧
    (∀ l, o.payoff (PyVal.divs l) = Except.error QbError.typeError) ∧
    (∀ S K, S < 0 → o.strike = PyVal.num K →
       ∃ q, o.payoff (PyVal.num S) = Except.ok q) := by
  refine ⟨?_, fun s => ?_, fun l => ?_, fun S K _hS hstrike => ?_⟩
  · cases h : o.strike <;> simp [VanillaOption.payoff, h]
  · cases h : o.strike <;> simp [VanillaOption.payoff, h]
  · cases h : o.strike <;> simp [VanillaOption.payoff, h]
  · exact ⟨max (o.option_type_flag * (S - K)) 0,
      by simp [VanillaOption.payoff, hstrike]⟩

/-- Witness for the amended C5 at the concrete Put contract: payoff(None)
raises the type error and payoff(−5) produces a value. -/
theorem payoff_spot_validation_witness :
    samplePut.payoff PyVal.pyNone = Except.error QbError.typeError ∧
    ∃ q, samplePut.payoff (PyVal.num (-5)) = Except.ok q :=
  ⟨(payoff_spot_validation samplePut).1,
   (payoff_spot_validation samplePut).2.2.2 (-5) 100 (by norm_num) rfl⟩

/-- Claim C2: with the model argument absent (None) or empty, every
adapter's engine call funnels into the base operation, which resolves the
model by the catalog lookup keyed by (underlying class, derivative type,
expiry type); when the catalog has a value the engine is bound to it, and
when the catalog has no entry the call fails with exactly the
no-default-model error, never any other outcome. -/
theorem engine_default_model_resolution (cat : Catalog) (undl : String)
    (o : VanillaOption) (model : PyVal) (bag : List (String × PyVal))
    (hm : model.falsy = true) :
    (cat.defaultModel undl o.derivative_type o.expiry_type = Option.none →
       instrumentEngine cat undl o model bag
         = Except.error QbError.noDefaultModel) ∧
    (∀ m, cat.defaultModel undl o.derivative_type o.expiry_type = some m →
       instrumentEngine cat undl o model bag
         = Except.ok (PricingEngineB.mk undl o (PyVal.str m) bag)) ∧
    (∀ mOpt p1 p2 p3 p4 p5 p6 kwargs,
       eqEngine cat o mOpt p1 p2 p3 p4 p5 p6 kwargs
         = instrumentEngine cat UdlType.STOCK o (mOpt.getD PyVal.pyNone)
             (eqEngineBag p1 p2 p3 p4 p5 p6 kwargs)) ∧
    (∀ mOpt p1 p2 p3 p4 kwargs,
       futEngine cat o mOpt p1 p2 p3 p4 kwargs
         = instrumentEngine cat UdlType.FUTURES o (mOpt.getD PyVal.pyNone)
             (futEngineBag p1 p2 p3 p4 kwargs)) ∧
    (∀ mOpt p1 p2 p3 p4 p5 kwargs,
       fxEngine cat o mOpt p1 p2 p3 p4 p5 kwargs
         = instrumentEngine cat UdlType.FX o (mOpt.getD PyVal.pyNone)
             (fxEngineBag p1 p2 p3 p4 p5 kwargs)) ∧
    (∀ mOpt p1 p2 p3 p4 p5 p6 kwargs,
       comEngine cat o mOpt p1 p2 p3 p4 p5 p6 kwargs
         = instrumentEngine cat UdlType.COMMODITY o (mOpt.getD PyVal.pyNone)
             (comEngineBag p1 p2 p3 p4 p5 p6 kwargs)) := by
  refine ⟨fun h => ?_, fun m h => ?_, fun _ _ _ _ _ _ _ _ => rfl,
    fun _ _ _ _ _ _ => rfl, fun _ _ _ _ _ _ _ => rfl,
    fun _ _ _ _ _ _ _ _ => rfl⟩
  · simp [instrumentEngine, hm, h]
  · simp [instrumentEngine, hm, h]

/-- Witness for C2: with no model and an empty catalog, binding the sample
equity contract fails with exactly the no-default-model error. -/
theorem engine_default_model_resolution_witness :
    instrumentEngine catEmpty UdlType.STOCK sampleCall PyVal.pyNone []
      = Except.error QbError.noDefaultModel :=
  (engine_default_model_resolution catEmpty UdlType.STOCK sampleCall
    PyVal.pyNone [] rfl).1 rfl

/-- Claim C9: for a catalog whose permitted-model lists never contain the
empty string, any model m taken from the list behind list_models, passed
explicitly, never produces the no-default-model error — an explicit
non-empty model skips default-model resolution entirely, in the base
operation and in all four adapters. -/
theorem listed_model_never_no_default (cat : Catalog) (hwf : cat.WF)
    (undl : String) (o : VanillaOption) (l : List String) (m : String)
    (hl : cat.objectModel undl o.expiry_type = some l) (hm : m ∈ l) :
    list_models cat undl o = Except.ok (String.intercalate ", " l) ∧
    (∀ bag, instrumentEngine cat undl o (PyVal.str m) bag
       ≠ Except.error QbError.noDefaultModel) ∧
    (∀ p1 p2 p3 p4 p5 p6 kwargs,
       eqEngine cat o (some (PyVal.str m)) p1 p2 p3 p4 p5 p6 kwargs
         ≠ Except.error QbError.noDefaultModel) ∧
    (∀ p1 p2 p3 p4 kwargs,
       futEngine cat o (some (PyVal.str m)) p1 p2 p3 p4 kwargs
         ≠ Except.error QbError.noDefaultModel) ∧
    (∀ p1 p2 p3 p4 p5 kwargs,
       fxEngine cat o (some (PyVal.str m)) p1 p2 p3 p4 p5 kwargs
         ≠ Except.error QbError.noDefaultModel) ∧
    (∀ p1 p2 p3 p4 p5 p6 kwargs,
       comEngine cat o (some (PyVal.str m)) p1 p2 p3 p4 p5 p6 kwargs
         ≠ Except.error QbError.noDefaultModel) := by
  have hne : m ≠ "" := fun h => hwf undl o.expiry_type l hl (h ▸ hm)
  have hfalsy : (PyVal.str m).falsy = false := by
    simp [PyVal.falsy, hne]
  refine ⟨by simp [list_models, hl], fun bag => ?_,
    fun p1 p2 p3 p4 p5 p6 kwargs => ?_, fun p1 p2 p3 p4 kwargs => ?_,
    fun p1 p2 p3 p4 p5 kwargs => ?_, fun p1 p2 p3 p4 p5 p6 kwargs => ?_⟩ <;>
    simp [eqEngine, futEngine, fxEngine, comEngine, instrumentEngine, hfalsy]

/-- Witness for C9: with the concrete catalog listing "BSM" and "MC_GBM"
for European stock options, list_models returns the joined listing and
binding with the listed model "BSM" does not produce the
no-default-model error. -/
theorem listed_model_never_no_default_witness :
    list_models catBSM UdlType.STOCK sampleCall = Except.ok "BSM, MC_GBM" ∧
    instrumentEngine catBSM UdlType.STOCK sampleCall (PyVal.str "BSM") []
      ≠ Except.error QbError.noDefaultModel := by
  have hwf : catBSM.WF := by
    intro undl et l h
    simp only [catBSM] at h
    split at h
    · cases h; decide
    · cases h
  have h := listed_model_never_no_default catBSM hwf UdlType.STOCK sampleCall
    ["BSM", "MC_GBM"] "BSM" (by decide) (by decide)
  exact ⟨h.1, h.2.1 []⟩

/-- Claim C7: for every supplied risk_free_rate r, the keyword bag the
futures adapter hands to the base engine-binding operation satisfies
rf_rate (domestic rate) = cnv_yield (carry yield) = r; indeed the two
entries are equal for every rf_rate argument, supplied or omitted. -/
theorem fut_bag_rates_collapse :
    (∀ (r : PyVal) (fwd0 volatility pricing_date : Option PyVal)
       (kwargs : List (String × PyVal)),
       bagGet "rf_rate" (futEngineBag fwd0 (some r) volatility pricing_date kwargs)
           = some r ∧
       bagGet "cnv_yield" (futEngineBag fwd0 (some r) volatility pricing_date kwargs)
           = some r) ∧
    (∀ (rf_rate fwd0 volatility pricing_date : Option PyVal)
       (kwargs : List (String × PyVal)),
       bagGet "rf_rate" (futEngineBag fwd0 rf_rate volatility pricing_date kwargs)
         = bagGet "cnv_yield" (futEngineBag fwd0 rf_rate volatility pricing_date kwargs)) :=
  ⟨fun _ _ _ _ _ => ⟨rfl, rfl⟩, fun _ _ _ _ _ => rfl⟩

/-- Claim C8: in the bag the FX adapter hands to the base engine-binding
operation, cnv_yield (carry yield) equals the supplied foreign rate, and
its value does not depend on the supplied domestic rate. -/
theorem fx_bag_carry_is_foreign_rate :
    (∀ (f : PyVal) (spot0 dom volatility pricing_date : Option PyVal)
       (kwargs : List (String × PyVal)),
       bagGet "cnv_yield"
           (fxEngineBag spot0 dom (some f) volatility pricing_date kwargs)
         = some f) ∧
    (∀ (fr spot0 dom1 dom2 volatility pricing_date : Option PyVal)
       (kwargs : List (String × PyVal)),
       bagGet "cnv_yield"
           (fxEngineBag spot0 dom1 fr volatility pricing_date kwargs)
         = bagGet "cnv_yield"
             (fxEngineBag spot0 dom2 fr volatility pricing_date kwargs)) :=
  ⟨fun _ _ _ _ _ _ => rfl, fun _ _ _ _ _ _ _ => rfl⟩

/-- Claim C6 counterexample: calling the equity adapter's engine with
rf_rate omitted hands the base operation a bag whose rf_rate entry is the
number 0 — a default silently substituted for an omitted required
financial input, contradicting "no default value is ever substituted". -/
theorem omitted_rate_defaults_to_zero :
    bagGet "rf_rate" (eqEngineBag Option.none Option.none Option.none
        Option.none Option.none Option.none []) = some (PyVal.num 0) := rfl

/-- Claim C6 (amended): when the caller omits them, the rate and yield
inputs of all four adapters are silently defaulted to the number 0
(equity rf_rate and yield_div; futures rf_rate; FX local and foreign
rates; commodity rf_rate, cnv_yield and cost_yield), while omitted
spot/forward and volatility are passed through as None rather than a
numeric default; the model identifier additionally has its
catalog-based default-resolution path. -/
theorem adapter_omitted_input_defaults (kwargs : List (String × PyVal)) :
    (bagGet "rf_rate" (eqEngineBag Option.none Option.none Option.none
         Option.none Option.none Option.none kwargs) = some (PyVal.num 0) ∧
     bagGet "cnv_yield" (eqEngineBag Option.none Option.none Option.none
         Option.none Option.none Option.none kwargs) = some (PyVal.num 0) ∧
     bagGet "spot0" (eqEngineBag Option.none Option.none Option.none
         Option.none Option.none Option.none kwargs) = some PyVal.pyNone ∧
     bagGet "volatility" (eqEngineBag Option.none Option.none Option.none
         Option.none Option.none Option.none kwargs) = some PyVal.pyNone) ∧
    (bagGet "rf_rate" (futEngineBag Option.none Option.none Option.none
         Option.none kwargs) = some (PyVal.num 0) ∧
     bagGet "cnv_yield" (futEngineBag Option.none Option.none Option.none
         Option.none kwargs) = some (PyVal.num 0) ∧
     bagGet "spot0" (futEngineBag Option.none Option.none Option.none
         Option.none kwargs) = some PyVal.pyNone) ∧
    (bagGet "rf_rate" (fxEngineBag Option.none Option.none Option.none
         Option.none Option.none kwargs) = some (PyVal.num 0) ∧
     bagGet "cnv_yield" (fxEngineBag Option.none Option.none Option.none
         Option.none Option.none kwargs) = some (PyVal.num 0) ∧
     bagGet "spot0" (fxEngineBag Option.none Option.none Option.none
         Option.none Option.none kwargs) = some PyVal.pyNone) ∧
    (bagGet "rf_rate" (comEngineBag Option.none Option.none Option.none
         Option.none Option.none Option.none kwargs) = some (PyVal.num 0) ∧
     bagGet "cnv_yield" (comEngineBag Option.none Option.none Option.none
         Option.none Option.none Option.none kwargs) = some (PyVal.num 0) ∧
     bagGet "cost_yield" (comEngineBag Option.none Option.none Option.none
         Option.none Option.none Option.none kwargs) = some (PyVal.num 0) ∧
     bagGet "volatility" (comEngineBag Option.none Option.none Option.none
         Option.none Option.none Option.none kwargs) = some PyVal.pyNone) :=
  ⟨⟨rfl, rfl, rfl, rfl⟩, ⟨rfl, rfl, rfl⟩, ⟨rfl, rfl, rfl⟩, ⟨rfl, rfl, rfl, rfl⟩⟩

/-- A zero-padded digit character is a digit. -/
theorem digitChar_isDigit (k : Nat) (hk : k < 10) :
    (digitChar k).isDigit = true := by
  interval_cases k <;> rfl

/-- The numeric value recovered from a zero-padded digit character. -/
theorem digitChar_toNat (k : Nat) (hk : k < 10) :
    (digitChar k).toNat - 48 = k := by
  interval_cases k <;> rfl

/-- The `%Y` fragment recovers a four-digit year from its zero-padded
rendering, whatever follows it. -/
theorem parseYear_yearChars (y : Nat) (hy : y ≤ 9999) (rest : List Char) :
    parseYear (yearChars y ++ rest) = some (y, rest) := by
  have h1 : y / 1000 % 10 < 10 := Nat.mod_lt _ (by norm_num)
  have h2 : y / 100 % 10 < 10 := Nat.mod_lt _ (by norm_num)
  have h3 : y / 10 % 10 < 10 := Nat.mod_lt _ (by norm_num)
  have h4 : y % 10 < 10 := Nat.mod_lt _ (by norm_num)
  simp only [yearChars, List.cons_append, List.nil_append, parseYear,
    digitChar_isDigit _ h1, digitChar_isDigit _ h2, digitChar_isDigit _ h3,
    digitChar_isDigit _ h4, Bool.and_self, if_true,
    digitChar_toNat _ h1, digitChar_toNat _ h2, digitChar_toNat _ h3,
    digitChar_toNat _ h4, Option.some.injEq, Prod.mk.injEq, and_true]
  omega

/-- The `%m` fragment's first match on a zero-padded month `1 ≤ m ≤ 12` is
the two-digit one, recovering `m` and leaving the rest untouched. -/
theorem mAlts_monthChars (m : Nat) (hm1 : 1 ≤ m) (hm : m ≤ 12)
    (rest : List Char) :
    ∃ t, mAlts (monthChars m ++ rest) = (m, rest) :: t := by
  interval_cases m <;> exact ⟨_, rfl⟩

/-- The `%d` fragment's first match on a zero-padded day `1 ≤ d ≤ 31` is
the two-digit one, recovering `d` and leaving the rest untouched. -/
theorem dAlts_dayChars (d : Nat) (hd1 : 1 ≤ d) (hd : d ≤ 31)
    (rest : List Char) :
    ∃ t, dAlts (dayChars d ++ rest) = (d, rest) :: t := by
  interval_cases d <;> exact ⟨_, rfl⟩

/-- No month has more than 31 days. -/
theorem daysInMonth_le_31 (y m : Nat) : daysInMonth y m ≤ 31 := by
  unfold daysInMonth
  split
  · split <;> omega
  · split <;> omega

/-- Any valid calendar date rendered as its zero-padded 8-digit `YYYYMMDD`
string parses back to itself: the regex consumes all eight characters
(two-digit month and day alternatives first) and the calendar check
passes. -/
theorem strptimeYmd_fmt8 (y m d : Nat) (hy1 : 1 ≤ y) (hy : y ≤ 9999)
    (hm1 : 1 ≤ m) (hm : m ≤ 12) (hd1 : 1 ≤ d)
    (hd : d ≤ daysInMonth y m) :
    strptimeYmd (fmt8 y m d) = Except.ok (Date.mk y m d) := by
  have hd31 : d ≤ 31 := le_trans hd (daysInMonth_le_31 y m)
  obtain ⟨t1, hmal⟩ := mAlts_monthChars m hm1 hm (dayChars d)
  obtain ⟨t2, hdal⟩ := dAlts_dayChars d hd1 hd31 []
  rw [List.append_nil] at hdal
  have htl : (fmt8 y m d).toList = yearChars y ++ (monthChars m ++ dayChars d) := rfl
  rw [strptimeYmd, htl, matchYmd, parseYear_yearChars y hy, Option.some_bind]
  simp only [hmal, List.flatMap_cons, hdal, List.map_cons, List.cons_append,
    List.head?_cons]
  simp [hy1, hd1, hd]

/-- Claim C4 counterexample: "201811" is not a string of 8 digits, yet it
does not fail with the malformed-date error: strptime parses it (the
month and day each match a single digit) as 1 Jan 2018. -/
theorem short_digit_string_parses :
    strptimeYmd "201811" = Except.ok (Date.mk 2018 1 1) ∧
    "201811".length ≠ 8 := ⟨rfl, by decide⟩

/-- Claim C4 (amended): an expiry-date string of exactly 8 digits in
zero-padded YYYYMMDD form denoting a valid calendar date parses to that
date ("20181210" to 10 Dec 2018), and "2018-12-10" and "20181232" both
fail with the malformed-date error; but not every other string fails:
the parser also accepts strings whose month or day is a single
unpadded digit, e.g. "201811", which parses as 1 Jan 2018. -/
theorem strptime_spec (y m d : Nat) (hy1 : 1 ≤ y) (hy : y ≤ 9999)
    (hm1 : 1 ≤ m) (hm : m ≤ 12) (hd1 : 1 ≤ d)
    (hd : d ≤ daysInMonth y m) :
    strptimeYmd (fmt8 y m d) = Except.ok (Date.mk y m d) ∧
    strptimeYmd "20181210" = Except.ok (Date.mk 2018 12 10) ∧
    strptimeYmd "2018-12-10" = Except.error QbError.malformedDate ∧
    strptimeYmd "20181232" = Except.error QbError.malformedDate ∧
    strptimeYmd "201811" = Except.ok (Date.mk 2018 1 1) :=
  ⟨strptimeYmd_fmt8 y m d hy1 hy hm1 hm hd1 hd, rfl, rfl, rfl, rfl⟩

/-- Witness for the amended C4 at 29 Feb 2016 (a leap day): its 8-digit
rendering "20160229" parses back to it, and the three concrete examples
behave as stated. -/
theorem strptime_spec_witness :
    strptimeYmd (fmt8 2016 2 29) = Except.ok (Date.mk 2016 2 29) ∧
    strptimeYmd "20181210" = Except.ok (Date.mk 2018 12 10) :=
  ⟨(strptime_spec 2016 2 29 (by norm_num) (by norm_num) (by norm_num)
      (by norm_num) (by norm_num) (by decide)).1,
   (strptime_spec 2016 2 29 (by norm_num) (by norm_num) (by norm_num)
      (by norm_num) (by norm_num) (by decide)).2.1⟩
